import Mathlib

/-!
Verification development for the Vitacoin Rewards backend
(`src/backend/server.py`).

The Python handlers are embedded as pure Lean functions over an explicit
database state.  Conventions of the embedding:

* `datetime` values are UTC instants, modelled as `Int` seconds since the
  epoch.  The source normalises naive timestamps to UTC before comparing
  (`claim_daily_reward`, lines 424-428), so a single instant type is
  faithful.  Python `int(x)` on a nonnegative quotient truncates toward
  zero, modelled by `Int.tdiv`; `datetime.date()` is the floor of the day
  index, modelled by Euclidean division `/ 86400`.
* MongoDB calls are modelled as operations on Lean lists held in a
  `ServerDb` record: `find_one` is `List.find?`, `$push`/`insert_one` is
  an append, `update_one` rewrites the first matching document.
* Raised exceptions are `Except.error`; a normal return is `Except.ok`.
  The task-claim path distinguishes a deliberate `HTTPException`
  (`PyError.http`) from an uncaught Python `TypeError`
  (`PyError.typeError`), which the framework surfaces as a 500: the
  document store returns NAIVE datetimes, so the expiry comparison of
  `claim_task_reward` (line 556) and the `str.replace` call on a stored
  timestamp in the Task Master branch (line 327) both raise `TypeError`
  instead of completing.  The daily-reward handler normalises its naive
  timestamp itself (lines 424-428), so its cooldown comparison cannot
  raise and it keeps the plain `HTTPException` error type.  Each handler
  returns the updated database together with its result, so failure
  paths make their (absence of) state mutation explicit.
* WebSocket side effects of the business handlers (`send_personal_message`,
  `broadcast_leaderboard_update`) touch only the external transport and are
  modelled separately with the `ConnectionManager` below.
-/

namespace Vitacoin

/-- JSON-ish scalar used in activity-log detail payloads. -/
inductive JVal where
  | str (v : String)
  | int (v : Int)
deriving DecidableEq, Repr

/-- ActivityLogEntry model (server.py lines 194-197): an action name, a
timestamp and a structured detail payload. -/
structure ActivityLogEntry where
  action : String
  timestamp : Int
  details : List (String × JVal)
deriving DecidableEq, Repr

/-- User document (server.py lines 76-88).  Authentication fields
(`email`, `password_hash`, `role`, `badges`, `created_at`) belong to the
external Authenticator and are not consumed by the modelled operations, so
they are omitted.  `task_progress` is read at the top of
`check_task_requirements` but every branch overwrites it, so the field is
dead for the modelled operations and omitted as well. -/
structure User where
  id : String
  name : String
  coins : Int
  last_daily_reward : Option Int
  completed_tasks : List String
  activity_log : List ActivityLogEntry
deriving DecidableEq, Repr

/-- Task document (server.py lines 111-123).  `requirements` is opaque
structured data never inspected by the evaluator (dispatch is on `title`),
kept for shape fidelity. -/
structure Task where
  id : String
  title : String
  description : String
  category : String
  coins_reward : Int
  difficulty : String
  requirements : List (String × JVal)
  active : Bool
  max_completions : Option Int
  completion_count : Int
  expires_at : Option Int
deriving DecidableEq, Repr

/-- TaskCompletion record (server.py lines 152-157). -/
structure TaskCompletion where
  user_id : String
  task_id : String
  coins_earned : Int
  completed_at : Int
deriving DecidableEq, Repr

/-- RewardRule document (server.py lines 159-169). -/
structure RewardRule where
  key : String
  description : String
  points : Int
  penalty : Bool
  active : Bool
  cooldown_hours : Option Int
  daily_cap : Option Int
  per_user_cap : Option Int
deriving DecidableEq, Repr

/-- Transaction record (server.py lines 171-179). -/
structure Transaction where
  user_id : String
  amount : Int
  type : String
  rule_key : String
  description : String
  task_id : Option String
  created_at : Int
deriving DecidableEq, Repr

/-- DailyRewardResponse (server.py lines 181-186). -/
structure DailyRewardResponse where
  success : Bool
  message : String
  coins_earned : Option Int := none
  new_balance : Option Int := none
  next_reward_in : Option Int := none
deriving DecidableEq, Repr

/-- TaskCompletionResponse (server.py lines 188-192). -/
structure TaskCompletionResponse where
  success : Bool
  message : String
  coins_earned : Option Int := none
  new_balance : Option Int := none
deriving DecidableEq, Repr

/-- LeaderboardEntry (server.py lines 199-203). -/
structure LeaderboardEntry where
  id : String
  name : String
  coins : Int
  rank : Nat
deriving DecidableEq, Repr

/-- FastAPI `HTTPException`: a status code plus a detail string. -/
structure HTTPException where
  status_code : Nat
  detail : String
deriving DecidableEq, Repr

/-- Outcome of a handler that can terminate abnormally in two ways: a
deliberately raised `HTTPException`, or an uncaught Python `TypeError`
(surfaced by the framework as a 500 server error). -/
inductive PyError where
  | http (e : HTTPException)
  | typeError (msg : String)
deriving DecidableEq, Repr

deriving instance DecidableEq for Except

/-- Database state touched by the modelled handlers, for one authenticated
user document plus the shared collections. -/
structure ServerDb where
  user : User
  tasks : List Task
  reward_rules : List RewardRule
  transactions : List Transaction
  task_completions : List TaskCompletion
deriving DecidableEq, Repr

/-- Helper `log_user_activity` (server.py lines 239-245): `$push` one
entry onto the user's `activity_log`. -/
def log_user_activity (u : User) (now : Int) (action : String)
    (details : List (String × JVal)) : User :=
  { u with activity_log := u.activity_log ++ [⟨action, now, details⟩] }

/-- Grant branch of `claim_daily_reward` (server.py lines 439-491): look
up the active `daily_login` rule (404 if absent), then credit the points,
stamp `last_daily_reward`, append the transaction and the activity entry. -/
def claim_daily_grant (now : Int) (st : ServerDb) :
    ServerDb × Except HTTPException DailyRewardResponse :=
  match st.reward_rules.find? (fun r => r.key == "daily_login" && r.active) with
  | none => (st, .error ⟨404, "Daily reward rule not found"⟩)
  | some rule =>
    let tx : Transaction :=
      { user_id := st.user.id, amount := rule.points, type := "credit"
        rule_key := rule.key, description := rule.description
        task_id := none, created_at := now }
    let new_coins := st.user.coins + rule.points
    let user' := { st.user with coins := new_coins, last_daily_reward := some now }
    let user'' := log_user_activity user' now "daily_reward_claimed"
      [("coins", .int rule.points)]
    let pts := rule.points
    ({ st with user := user'', transactions := st.transactions ++ [tx] },
     .ok { success := true
           message := s!"Daily reward claimed! +{pts} coins"
           coins_earned := some rule.points
           new_balance := some new_coins })

/-- Handler `POST /api/rewards/daily` (server.py lines 418-491).  If the
user's `last_daily_reward` is less than 24 hours old the handler returns a
`success=false` response carrying `next_reward_in` hours and leaves the
state untouched; otherwise it runs the grant branch. -/
def claim_daily_reward (now : Int) (st : ServerDb) :
    ServerDb × Except HTTPException DailyRewardResponse :=
  match st.user.last_daily_reward with
  | some last_reward =>
    let time_since_last := now - last_reward
    if time_since_last < 24 * 3600 then
      let hours_remaining := 24 - Int.tdiv time_since_last 3600
      (st, .ok { success := false
                 message := s!"Daily reward already claimed. Next reward in {hours_remaining} hours."
                 next_reward_in := some hours_remaining })
    else
      claim_daily_grant now st
  | none => claim_daily_grant now st

/-- Progress dictionary built by `check_task_requirements` (server.py
lines 247-346).  Every branch of the source sets `status` and
`description`; the remaining keys appear only in the branches noted on
each field, hence the `Option` defaults. -/
structure Progress where
  status : String
  description : String
  viewed_profile : Option Bool := none
  viewed_transactions : Option Bool := none
  current_coins : Option Int := none
  target_coins : Option Int := none
  completed_today : Option Nat := none
  target : Option Nat := none
deriving DecidableEq, Repr

/-- Python list slice `l[-20:]`: the last `n` entries (the whole list when
it is shorter). -/
def lastN (n : Nat) (l : List α) : List α :=
  l.drop (l.length - n)

/-- Counting loop of the Task Master branch (server.py lines 324-328).
Stored activity timestamps are datetime objects (appended as such by
`log_user_activity` and returned as such by the document store), yet
line 327 calls `activity["timestamp"].replace("Z", "+00:00")`:
`datetime.replace` takes integer field arguments, so the call raises
`TypeError` for the first `task_completed` entry encountered — the
short-circuiting `and` touches the timestamp only for such entries — and
the date comparison behind it is unreachable.  Only a log with no
`task_completed` entry completes the loop, with count 0. -/
def completed_today_count : List ActivityLogEntry → Except PyError Nat
  | [] => .ok 0
  | a :: rest =>
    if a.action == "task_completed" then
      .error (.typeError "an integer is required (got type str)")
    else
      completed_today_count rest

/-- Task evaluator `check_task_requirements` (server.py lines 247-346):
dispatch on the task title, inspect the user's activity log / balance,
and return the progress dictionary together with `can_claim`.  The
initial `user.task_progress.get(task.id, {})` of the source is dead
(every branch reassigns `progress`) and is not modelled.  The Task
Master branch raises `TypeError` whenever the log holds a
`task_completed` entry (see `completed_today_count`); every other branch
returns normally. -/
def check_task_requirements (_now : Int) (user : User) (task : Task) :
    Except PyError (Progress × Bool) :=
  if task.title == "First Login" then
    .ok ({ status := "completed", description := "You\x27ve logged in! Ready to claim." }, true)
  else if task.title == "Profile Explorer" then
    let recent := lastN 20 user.activity_log
    let viewed_profile := recent.any (fun a => a.action == "viewed_profile")
    let viewed_transactions := recent.any (fun a => a.action == "viewed_transactions")
    if viewed_profile && viewed_transactions then
      .ok ({ status := "completed"
             description := "You\x27ve explored your profile and transactions!" }, true)
    else
      let needed := (if viewed_profile then [] else ["View your profile"]) ++
        (if viewed_transactions then [] else ["Check your transaction history"])
      let neededStr := String.intercalate ", " needed
      .ok ({ status := "in_progress"
             description := s!"Complete these actions: {neededStr}"
             viewed_profile := some viewed_profile
             viewed_transactions := some viewed_transactions }, false)
  else if task.title == "Social Butterfly" then
    let recent := lastN 20 user.activity_log
    let viewed_leaderboard := recent.any (fun a => a.action == "viewed_leaderboard")
    if viewed_leaderboard then
      .ok ({ status := "completed"
             description := "You\x27ve checked out the competition!" }, true)
    else
      .ok ({ status := "in_progress"
             description := "Visit the leaderboard to see other players" }, false)
  else if task.title == "Community Member" then
    .ok ({ status := "completed", description := "Welcome to Vitacoin! Claim your bonus." }, true)
  else if task.title == "Coin Collector" then
    if user.coins ≥ 100 then
      let c := user.coins
      .ok ({ status := "completed"
             description := s!"You have {c} coins! Achievement unlocked." }, true)
    else
      let remaining := 100 - user.coins
      .ok ({ status := "in_progress"
             description := s!"Collect {remaining} more coins to unlock this achievement"
             current_coins := some user.coins
             target_coins := some 100 }, false)
  else if task.title == "Task Master" then
    match completed_today_count user.activity_log with
    | .error e => .error e
    | .ok completed_today =>
      if completed_today ≥ 3 then
        .ok ({ status := "completed"
               description := s!"You\x27ve completed {completed_today} tasks today!" }, true)
      else
        let more := 3 - completed_today
        .ok ({ status := "in_progress"
               description := s!"Complete {more} more tasks today ({completed_today}/3)"
               completed_today := some completed_today
               target := some 3 }, false)
  else
    .ok ({ status := "completed", description := "Task ready to claim!" }, true)

/-- Mongo `db.tasks.find_one(\x7b"id": task_id, "active": True\x7d)`
(server.py line 548): first stored task matching both filters. -/
def find_task (st : ServerDb) (task_id : String) : Option Task :=
  st.tasks.find? (fun t => t.id == task_id && t.active)

/-- Expiry test of `claim_task_reward` (server.py line 556):
`task.expires_at and task.expires_at < now`.  A datetime is always
truthy, so `None` skips the comparison; but a stored expiry is read back
from the document store as a NAIVE datetime while `now` is
timezone-aware, so the `<` raises `TypeError` — unlike the daily-reward
handler, this path never normalises the naive value.  The `true` branch
(HTTP 400 "Task has expired") is therefore unreachable. -/
def task_expiry_test (_now : Int) (task : Task) : Except PyError Bool :=
  match task.expires_at with
  | some _ =>
    .error (.typeError "can\x27t compare offset-naive and offset-aware datetimes")
  | none => .ok false

/-- Completion-limit test of `claim_task_reward` (server.py line 572):
`task.max_completions and task.completion_count >= task.max_completions`
— Python truthiness makes both `None` and `0` skip the comparison. -/
def limit_reached (task : Task) : Bool :=
  match task.max_completions with
  | some m => m != 0 && task.completion_count ≥ m
  | none => false

/-- Mongo `db.tasks.update_one(\x7b"id": task_id\x7d, \x7b"$inc": ...\x7d)`
(server.py lines 607-610): increment `completion_count` on the first
stored task with the given id (no `active` filter here). -/
def incFirstTask (tid : String) : List Task → List Task
  | [] => []
  | t :: rest =>
    if t.id == tid then { t with completion_count := t.completion_count + 1 } :: rest
    else t :: incFirstTask tid rest

/-- Handler `POST /api/tasks/{task_id}/claim` (server.py lines 544-650).
Checks run in source order — not-found, expiry comparison (which raises
`TypeError` for any set expiry), already-completed, requirements
evaluation (which raises `TypeError` for a Task Master task once any
`task_completed` entry exists), completion-limit — and only then are the
five writes applied. -/
def claim_task_reward (now : Int) (st : ServerDb) (task_id : String) :
    ServerDb × Except PyError TaskCompletionResponse :=
  match find_task st task_id with
  | none => (st, .error (.http ⟨404, "Task not found or inactive"⟩))
  | some task =>
    match task_expiry_test now task with
    | .error e => (st, .error e)
    | .ok expired =>
    if expired then
      (st, .error (.http ⟨400, "Task has expired"⟩))
    else if task_id ∈ st.user.completed_tasks then
      (st, .error (.http ⟨400, "Task already completed"⟩))
    else
      match check_task_requirements now st.user task with
      | .error e => (st, .error e)
      | .ok req_check =>
      if !req_check.2 then
        let desc := req_check.1.description
        (st, .error (.http ⟨400, s!"Task requirements not met: {desc}"⟩))
      else if limit_reached task then
        (st, .error (.http ⟨400, "Task completion limit reached"⟩))
      else
        let completion : TaskCompletion :=
          { user_id := st.user.id, task_id := task_id
            coins_earned := task.coins_reward, completed_at := now }
        let tt := task.title
        let tx : Transaction :=
          { user_id := st.user.id, amount := task.coins_reward, type := "credit"
            rule_key := "task_" ++ task.category
            description := s!"Task completed: {tt}"
            task_id := some task_id, created_at := now }
        let new_coins := st.user.coins + task.coins_reward
        let completed_tasks := st.user.completed_tasks ++ [task_id]
        let user' := { st.user with coins := new_coins, completed_tasks := completed_tasks }
        let user'' := log_user_activity user' now "task_completed"
          [("task_id", .str task_id), ("task_title", .str task.title),
           ("coins_earned", .int task.coins_reward)]
        let rw := task.coins_reward
        ({ st with user := user''
                   tasks := incFirstTask task_id st.tasks
                   task_completions := st.task_completions ++ [completion]
                   transactions := st.transactions ++ [tx] },
         .ok { success := true
               message := s!"Task \x27{tt}\x27 completed! +{rw} coins"
               coins_earned := some task.coins_reward
               new_balance := some new_coins })

/-- Ordering used by the aggregation stage `$sort: \x7b"coins": -1\x7d`:
`a` may come before `b` when `b`'s balance is at most `a`'s. -/
def coinsGE (a b : User) : Prop := b.coins ≤ a.coins

instance : DecidableRel coinsGE := fun a b => inferInstanceAs (Decidable (b.coins ≤ a.coins))

instance : IsTotal User coinsGE := ⟨fun a b => Int.le_total b.coins a.coins⟩

instance : IsTrans User coinsGE := ⟨fun _ _ _ h1 h2 => le_trans h2 h1⟩

/-- Modelled from the spec: the document store behind the aggregation
pipeline of `get_leaderboard` is not part of `src/`; spec 4.3 fixes its
`$sort` to be stable — balance descending with ties kept in
insertion/storage order — which a stable insertion sort realises. -/
def sortUsers (users : List User) : List User :=
  users.insertionSort coinsGE

/-- Loop `for i, user in enumerate(results)` of `get_leaderboard`
(server.py lines 357-363): entry `i` gets `rank = i + 1`. -/
def rankFrom (i : Nat) : List User → List LeaderboardEntry
  | [] => []
  | u :: rest => ⟨u.id, u.name, u.coins, i + 1⟩ :: rankFrom (i + 1) rest

/-- Helper `get_leaderboard` (server.py lines 348-365): top-`limit`
users by descending balance, ranked `1..N` in sort order. -/
def get_leaderboard (limit : Nat) (users : List User) : List LeaderboardEntry :=
  rankFrom 0 ((sortUsers users).take limit)

/-- WebSocket channel of one connected user, abstracted to whether
`send_text` succeeds or raises. -/
structure Channel where
  send_ok : Bool
deriving DecidableEq, Repr

/-- ConnectionManager state (server.py lines 42-44): the
`active_connections` dict as an insertion-ordered association list with
unique keys. -/
structure ConnectionManager where
  active_connections : List (String × Channel)
deriving DecidableEq, Repr

/-- Transport send `connection.send_text(...)` (external): raises exactly
when the channel is broken. -/
def Channel.send_text (c : Channel) (_text : String) : Except String Unit :=
  if c.send_ok then .ok () else .error "connection closed"

/-- Method `ConnectionManager.disconnect` (server.py lines 50-52):
delete the user's key from the connection dict (keys are unique, so the
filter removes at most one binding). -/
def ConnectionManager.disconnect (m : ConnectionManager) (user_id : String) :
    ConnectionManager :=
  ⟨m.active_connections.filter (fun p => p.1 != user_id)⟩

/-- Fan-out loop of `broadcast_leaderboard` (server.py lines 64-68):
attempt a send to every connection of the snapshot in order; a raising
send is caught and the user id is collected into `disconnected`.
Returns (attempted ids, disconnected ids). -/
def broadcast_pass (payload : String) : List (String × Channel) → List String × List String
  | [] => ([], [])
  | (uid, ch) :: rest =>
    let r := broadcast_pass payload rest
    match ch.send_text payload with
    | .ok _ => (uid :: r.1, r.2)
    | .error _ => (uid :: r.1, uid :: r.2)

/-- Method `ConnectionManager.broadcast_leaderboard` (server.py lines
61-71): iterate over the whole connection map collecting failures, then
disconnect the failed ids after the pass.  Every raising call inside the
body sits under a bare `except`, so the method itself always returns
normally (`Except.ok`); the `ok` value carries the attempted ids and the
updated manager. -/
def ConnectionManager.broadcast_leaderboard (m : ConnectionManager) (payload : String) :
    Except String (List String × ConnectionManager) :=
  let r := broadcast_pass payload m.active_connections
  .ok (r.1, r.2.foldl (fun acc uid => acc.disconnect uid) m)

/-! ### Theorems -/

/-- Ceiling of an integer fraction over `ℚ`, reduced to Euclidean integer
division so that `omega` can work with it. -/
theorem ceil_ratCast_div (a : Int) (b : Nat) :
    ⌈(a : ℚ) / (b : ℚ)⌉ = -((-a) / (b : Int)) := by
  have h := Rat.floor_intCast_div_natCast (-a) b
  have h2 : ((-a : Int) : ℚ) / (b : ℚ) = -((a : ℚ) / (b : ℚ)) := by
    push_cast
    ring
  rw [h2, Int.floor_neg] at h
  omega

/-- Cooldown branch of `claim_daily_reward` in closed form: with a fresh
`last_daily_reward` the handler returns the failure response and leaves
the state unchanged. -/
theorem claim_daily_reward_of_lt {st : ServerDb} {now last : Int}
    (h : st.user.last_daily_reward = some last) (hlt : now - last < 24 * 3600) :
    ∃ msg, claim_daily_reward now st =
      (st, .ok ⟨false, msg, none, none, some (24 - Int.tdiv (now - last) 3600)⟩) := by
  simp only [claim_daily_reward, h, hlt, if_true]
  exact ⟨_, rfl⟩

/-- Eligible calls to `claim_daily_reward` fall through to the grant
branch. -/
theorem claim_daily_reward_of_eligible {st : ServerDb} {t0 : Int}
    (hEl : st.user.last_daily_reward = none ∨
      ∃ l, st.user.last_daily_reward = some l ∧ 24 * 3600 ≤ t0 - l) :
    claim_daily_reward t0 st = claim_daily_grant t0 st := by
  rcases hEl with hNone | ⟨l, hSome, hGe⟩
  · simp only [claim_daily_reward, hNone]
  · have h24 : ¬(t0 - l < 24 * 3600) := by omega
    simp only [claim_daily_reward, hSome, h24, if_false]

/-- C1: a call to `claim_daily_reward` while `last_daily_reward` is less
than 24 hours old returns a non-throwing `success = false` response whose
`next_reward_in` is the ceiling of the fractional remaining hours and
leaves the state untouched; an eligible call at `t0` credits the balance
once, a repeat at `t0+23h59m` fails with `next_reward_in = 1` and does
not credit again, and a call at `t0+24h01m` succeeds. -/
theorem claim_daily_reward_cooldown :
    (∀ (st : ServerDb) (now last : Int),
      st.user.last_daily_reward = some last →
      0 ≤ now - last → now - last < 24 * 3600 →
      ∃ msg, claim_daily_reward now st =
        (st, .ok ⟨false, msg, none, none,
          some ⌈((24 * 3600 - (now - last) : Int) : ℚ) / ((3600 : Nat) : ℚ)⌉⟩)) ∧
    (∀ (st : ServerDb) (t0 : Int) (rule : RewardRule),
      (st.user.last_daily_reward = none ∨
        ∃ l, st.user.last_daily_reward = some l ∧ 24 * 3600 ≤ t0 - l) →
      st.reward_rules.find? (fun r => r.key == "daily_login" && r.active) = some rule →
      ∃ st1 r1, claim_daily_reward t0 st = (st1, .ok r1) ∧
        r1.success = true ∧
        st1.user.coins = st.user.coins + rule.points ∧
        (∃ r2, claim_daily_reward (t0 + (23 * 3600 + 59 * 60)) st1 = (st1, .ok r2) ∧
          r2.success = false ∧ r2.next_reward_in = some 1) ∧
        (∃ st3 r3, claim_daily_reward (t0 + (24 * 3600 + 60)) st1 = (st3, .ok r3) ∧
          r3.success = true)) := by
  constructor
  · intro st now last hLast h0 h24
    obtain ⟨msg, hmsg⟩ := claim_daily_reward_of_lt hLast h24
    refine ⟨msg, ?_⟩
    have hceil : (24 - Int.tdiv (now - last) 3600 : Int) =
        ⌈((24 * 3600 - (now - last) : Int) : ℚ) / ((3600 : Nat) : ℚ)⌉ := by
      rw [ceil_ratCast_div]
      rw [Int.tdiv_eq_ediv h0 (by norm_num)]
      omega
    rw [hmsg, hceil]
  · intro st t0 rule hEl hRule
    rw [claim_daily_reward_of_eligible hEl]
    simp only [claim_daily_grant, hRule, log_user_activity]
    refine ⟨_, _, rfl, rfl, rfl, ?_, ?_⟩
    · simp only [claim_daily_reward]
      rw [if_pos (show t0 + (23 * 3600 + 59 * 60) - t0 < 24 * 3600 by omega)]
      refine ⟨_, rfl, rfl, ?_⟩
      show some (24 - Int.tdiv (t0 + (23 * 3600 + 59 * 60) - t0) 3600) = some 1
      rw [show t0 + (23 * 3600 + 59 * 60) - t0 = 86340 by ring]
      decide
    · rw [claim_daily_reward_of_eligible (Or.inr ⟨t0, rfl, by omega⟩)]
      simp only [claim_daily_grant, hRule, log_user_activity]
      exact ⟨_, _, rfl, rfl⟩

/-- Default `daily_login` rule as seeded by `initialize_database`
(server.py lines 786-793). -/
def dailyRule : RewardRule :=
  { key := "daily_login", description := "Daily login reward", points := 10
    penalty := false, active := true, cooldown_hours := some 24
    daily_cap := none, per_user_cap := none }

/-- Fresh user who has never claimed a daily reward. -/
def aliceFresh : User :=
  { id := "u1", name := "Alice", coins := 0, last_daily_reward := none
    completed_tasks := [], activity_log := [] }

/-- Database with the fresh user and the default daily rule. -/
def dbFresh : ServerDb :=
  { user := aliceFresh, tasks := [], reward_rules := [dailyRule]
    transactions := [], task_completions := [] }

/-- Database whose user claimed the daily reward at instant 0. -/
def dbCooling : ServerDb :=
  { dbFresh with user := { aliceFresh with last_daily_reward := some 0 } }

/-- Witness for the cooldown theorem: at `now = 50000` seconds past a
claim at 0, the handler fails with `next_reward_in = ⌈36400s/3600⌉ = 11`,
and the fresh-user scenario runs end to end. -/
theorem claim_daily_reward_cooldown_witness :
    (∃ msg, claim_daily_reward 50000 dbCooling =
      (dbCooling, .ok ⟨false, msg, none, none,
        some ⌈((24 * 3600 - ((50000 : Int) - 0) : Int) : ℚ) / ((3600 : Nat) : ℚ)⌉⟩)) ∧
    (∃ st1 r1, claim_daily_reward 0 dbFresh = (st1, .ok r1) ∧
      r1.success = true ∧
      st1.user.coins = dbFresh.user.coins + dailyRule.points ∧
      (∃ r2, claim_daily_reward (0 + (23 * 3600 + 59 * 60)) st1 = (st1, .ok r2) ∧
        r2.success = false ∧ r2.next_reward_in = some 1) ∧
      (∃ st3 r3, claim_daily_reward (0 + (24 * 3600 + 60)) st1 = (st3, .ok r3) ∧
        r3.success = true)) :=
  ⟨claim_daily_reward_cooldown.1 dbCooling 50000 0 rfl (by decide) (by decide),
   claim_daily_reward_cooldown.2 dbFresh 0 dailyRule (Or.inl rfl) (by decide)⟩

/-- Rule configured with a 48-hour cooldown, which the handler never
reads. -/
def rule48 : RewardRule := { dailyRule with cooldown_hours := some 48 }

/-- Database whose user last claimed at instant 0 under the 48-hour
rule. -/
def db48 : ServerDb :=
  { dbCooling with reward_rules := [rule48] }

/-- C4 counterexample: the active `daily_login` rule is configured with
`cooldown_hours = 48`, the user last claimed 25 hours ago — less than the
configured cooldown — yet the handler grants the reward, because it
compares against a hard-coded 24 hours. -/
theorem claim_daily_configured_cooldown_cex :
    db48.user.last_daily_reward = some 0 ∧
    rule48.cooldown_hours = some 48 ∧
    db48.reward_rules = [rule48] ∧
    ((25 * 3600 : Int) - 0) < 48 * 3600 ∧
    ∃ st' r, claim_daily_reward (25 * 3600) db48 = (st', .ok r) ∧ r.success = true :=
  ⟨rfl, rfl, rfl, by decide, _, _, rfl, rfl⟩

/-- C4 amended: the cooldown `claim_daily_reward` enforces is a fixed 24
hours — for every user with a recorded `last_daily_reward`, the handler
returns a `success = false` (NotEligible) response exactly when
`now - last_daily_reward < 24` hours, regardless of the rule's configured
`cooldown_hours` (the rule is consulted only after eligibility, for its
points). -/
theorem claim_daily_fixed_24h (st : ServerDb) (now last : Int)
    (h : st.user.last_daily_reward = some last) :
    (∃ r, (claim_daily_reward now st).2 = .ok r ∧ r.success = false) ↔
      now - last < 24 * 3600 := by
  constructor
  · rintro ⟨r, hr, hs⟩
    by_contra hge
    push_neg at hge
    rw [claim_daily_reward_of_eligible (Or.inr ⟨last, h, hge⟩)] at hr
    cases hfind : st.reward_rules.find? (fun r => r.key == "daily_login" && r.active) with
    | none => simp [claim_daily_grant, hfind] at hr
    | some rule =>
      simp only [claim_daily_grant, hfind] at hr
      cases hr
      cases hs
  · intro hlt
    obtain ⟨msg, hmsg⟩ := claim_daily_reward_of_lt h hlt
    exact ⟨_, by rw [hmsg], rfl⟩

/-- Witness for the amended C4 theorem at a concrete cooling-down
state. -/
theorem claim_daily_fixed_24h_witness :
    (∃ r, (claim_daily_reward 50000 dbCooling).2 = .ok r ∧ r.success = false) ↔
      (50000 : Int) - 0 < 24 * 3600 :=
  claim_daily_fixed_24h dbCooling 50000 0 rfl

/-- Task whose title falls through to the always-claimable default
branch of the evaluator. -/
def bonusTask : Task :=
  { id := "t1", title := "Bonus", description := "A bonus task"
    category := "special", coins_reward := 20, difficulty := "easy"
    requirements := [], active := true, max_completions := none
    completion_count := 0, expires_at := none }

/-- Database holding the fresh user and the bonus task. -/
def dbBonus : ServerDb :=
  { dbFresh with tasks := [bonusTask] }

/-- Task that is expired (expiry 50) and past its completion limit. -/
def expiredMultiTask : Task :=
  { bonusTask with expires_at := some 50, max_completions := some 1, completion_count := 5 }

/-- Database where several failure conditions hold at once for task
`t1`: it is expired, already completed by the user, and past its
completion limit. -/
def dbExpiredMulti : ServerDb :=
  { dbFresh with
      user := { aliceFresh with completed_tasks := ["t1"] }
      tasks := [expiredMultiTask] }

/-- The "Task Master" task as seeded by `initialize_database`. -/
def taskMasterTask : Task :=
  { bonusTask with
      id := "tm"
      title := "Task Master"
      category := "weekly"
      coins_reward := 50
      difficulty := "medium" }

/-- User with 2 `task_completed` events dated day 2 and 5 dated day 1
(the count-within-window scenario of the spec). -/
def eve : User :=
  { aliceFresh with
      id := "u2"
      name := "Eve"
      activity_log :=
        [⟨"task_completed", 2 * 86400 + 10, []⟩,
         ⟨"task_completed", 2 * 86400 + 20, []⟩,
         ⟨"task_completed", 86400 + 10, []⟩,
         ⟨"task_completed", 86400 + 20, []⟩,
         ⟨"task_completed", 86400 + 30, []⟩,
         ⟨"task_completed", 86400 + 40, []⟩,
         ⟨"task_completed", 86400 + 50, []⟩] }

/-- Unexpired "Task Master" task that is past its completion limit. -/
def tmLimitTask : Task :=
  { taskMasterTask with max_completions := some 1, completion_count := 5 }

/-- Database where Eve claims the over-limit Task Master task: both the
requirements check and the completion-limit condition are in play, but
no expiry is set. -/
def dbTMLimit : ServerDb :=
  { dbFresh with user := eve, tasks := [tmLimitTask] }

/-- C2 (code observation): the claimed error precedence is not what the
program does when several failure conditions coincide.  For a task that
is simultaneously expired, already completed and past its completion
limit, the handler raises `TypeError` from the naive-vs-aware expiry
comparison instead of reporting the expired-task error; for an
unexpired Task Master task whose user both fails the requirements and
exceeds the limit, the requirements evaluation raises `TypeError`
instead of reporting requirements-not-met.  Only the leading not-found
check reports as claimed. -/
theorem claim_task_precedence_typeError :
    claim_task_reward 0 dbBonus "missing" =
      (dbBonus, .error (.http ⟨404, "Task not found or inactive"⟩)) ∧
    claim_task_reward 100 dbExpiredMulti "t1" =
      (dbExpiredMulti,
        .error (.typeError "can\x27t compare offset-naive and offset-aware datetimes")) ∧
    claim_task_reward (2 * 86400 + 100) dbTMLimit "tm" =
      (dbTMLimit, .error (.typeError "an integer is required (got type str)")) :=
  ⟨rfl, rfl, rfl⟩

/-- C9: every failure outcome of `claim_task_reward` — the raised
`HTTPException`s and both uncaught `TypeError` crash points alike —
leaves the database untouched: the user's balance, completed set and
activity log, the task list and both record collections, because every
check (and both crash sites) precedes the first write. -/
theorem claim_task_failure_no_mutation (now : Int) (st : ServerDb) (tid : String)
    (e : PyError) (h : (claim_task_reward now st tid).2 = .error e) :
    (claim_task_reward now st tid).1 = st := by
  unfold claim_task_reward at h ⊢
  cases hfind : find_task st tid with
  | none => simp only [hfind]
  | some t =>
    simp only [hfind] at h ⊢
    cases hexp : task_expiry_test now t with
    | error e' => simp only [hexp]
    | ok b =>
      simp only [hexp] at h ⊢
      cases b with
      | true => simp
      | false =>
        simp only [Bool.false_eq_true, if_false] at h ⊢
        by_cases h2 : tid ∈ st.user.completed_tasks
        · simp only [h2, if_true]
        · simp only [h2, if_false] at h ⊢
          cases hreq : check_task_requirements now st.user t with
          | error e' => simp only [hreq]
          | ok rc =>
            simp only [hreq] at h ⊢
            by_cases h3 : rc.2
            · simp only [h3, Bool.not_true, Bool.false_eq_true, if_false] at h ⊢
              by_cases h4 : limit_reached t
              · simp only [h4, if_true]
              · simp only [h4, Bool.false_eq_true, if_false] at h
                cases h
            · simp only [Bool.not_eq_true] at h3
              simp only [h3, Bool.not_false, if_true]

/-- Witness for the no-mutation theorem at the multi-failure state,
where the failure is the expiry-comparison `TypeError`. -/
theorem claim_task_failure_no_mutation_witness :
    (claim_task_reward 100 dbExpiredMulti "t1").1 = dbExpiredMulti :=
  claim_task_failure_no_mutation 100 dbExpiredMulti "t1"
    (.typeError "can\x27t compare offset-naive and offset-aware datetimes") rfl

/-- C10: a task configured with `max_completions = 0` is treated as
unlimited, not as forbidding completion — whatever its current
`completion_count`, a claim passing the earlier checks succeeds, because
Python truthiness makes `0` skip the limit comparison. -/
theorem claim_task_zero_max_unlimited (now : Int) (st : ServerDb) (tid : String)
    (t : Task) (rc : Progress × Bool) (hfind : find_task st tid = some t)
    (hmax : t.max_completions = some 0)
    (hexp : t.expires_at = none)
    (hmem : tid ∉ st.user.completed_tasks)
    (hreq : check_task_requirements now st.user t = .ok rc)
    (hcan : rc.2 = true) :
    ∃ resp, (claim_task_reward now st tid).2 = .ok resp ∧ resp.success = true := by
  have hlim : limit_reached t = false := by
    simp [limit_reached, hmax]
  have hexp2 : task_expiry_test now t = .ok false := by
    simp [task_expiry_test, hexp]
  unfold claim_task_reward
  simp only [hfind, hexp2, hreq, hcan, hlim, Bool.not_true, Bool.false_eq_true,
    if_false, hmem, ite_false, ite_true]
  exact ⟨_, rfl, rfl⟩

/-- Task with `max_completions = 0` and a large completion counter. -/
def zeroMaxTask : Task :=
  { bonusTask with max_completions := some 0, completion_count := 1000000 }

/-- Database holding the fresh user and the zero-max task. -/
def dbZeroMax : ServerDb :=
  { dbFresh with tasks := [zeroMaxTask] }

/-- Witness: the zero-max task with a million completions still
succeeds. -/
theorem claim_task_zero_max_unlimited_witness :
    ∃ resp, (claim_task_reward 0 dbZeroMax "t1").2 = .ok resp ∧ resp.success = true :=
  claim_task_zero_max_unlimited 0 dbZeroMax "t1" zeroMaxTask
    ({ status := "completed", description := "Task ready to claim!" }, true)
    rfl rfl rfl (by decide) rfl rfl

/-- Active task whose expiry lies in the past of instant 100. -/
def expiredTask : Task := { bonusTask with expires_at := some 50 }

/-- Database holding the fresh user and the expired task. -/
def dbExpired : ServerDb := { dbFresh with tasks := [expiredTask] }

/-- C7 counterexample: claiming the expired task yields no 404-class
outcome — the handler terminates with the uncaught naive-vs-aware
`TypeError` (a 500 server error), which is neither the 404 used for a
missing or inactive task nor even the coded 400. -/
theorem claim_task_expired_status_cex :
    (claim_task_reward 100 dbExpired "t1").2 =
      .error (.typeError "can\x27t compare offset-naive and offset-aware datetimes") ∧
    (claim_task_reward 100 dbExpired "t1").2 ≠
      .error (.http ⟨404, "Task not found or inactive"⟩) ∧
    (claim_task_reward 100 dbExpired "t1").2 ≠
      .error (.http ⟨400, "Task has expired"⟩) :=
  ⟨rfl, by decide, by decide⟩

/-- C7 amended: for every active task with an expiry timestamp — past or
future — `claim_task_reward` raises an uncaught `TypeError` (a 500-class
server error) from the naive-vs-aware datetime comparison, so the
expired-task failure is never reported as a 404-class outcome (and the
coded 400 "Task has expired" is unreachable); 404 is reserved for a
missing or inactive task. -/
theorem claim_task_expiry_typeError (now : Int) (st : ServerDb) (tid : String)
    (t : Task) (e : Int) (hfind : find_task st tid = some t)
    (hexp : t.expires_at = some e) :
    claim_task_reward now st tid =
      (st, .error (.typeError
        "can\x27t compare offset-naive and offset-aware datetimes")) := by
  unfold claim_task_reward
  simp only [hfind, task_expiry_test, hexp]

/-- Witness for the amended expiry theorem at the expired task. -/
theorem claim_task_expiry_typeError_witness :
    claim_task_reward 100 dbExpired "t1" =
      (dbExpired, .error (.typeError
        "can\x27t compare offset-naive and offset-aware datetimes")) :=
  claim_task_expiry_typeError 100 dbExpired "t1" expiredTask 50 rfl rfl

/-- Under unique task ids, the task found by `find_task` is the same
document that the counter update (`update_one` on the id alone)
increments: the store splits around it. -/
theorem incFirstTask_of_find (tid : String) (ts : List Task) (t : Task)
    (hnd : (ts.map Task.id).Nodup)
    (hf : ts.find? (fun t => t.id == tid && t.active) = some t) :
    ∃ pre post, ts = pre ++ t :: post ∧
      incFirstTask tid ts =
        pre ++ { t with completion_count := t.completion_count + 1 } :: post := by
  induction ts with
  | nil => simp at hf
  | cons hd tl ih =>
    by_cases hmatch : (hd.id == tid && hd.active) = true
    · simp only [List.find?_cons, hmatch] at hf
      obtain rfl : hd = t := by cases hf; rfl
      have hid : (hd.id == tid) = true := by
        have := hmatch
        simp only [Bool.and_eq_true] at this
        exact this.1
      refine ⟨[], tl, rfl, ?_⟩
      simp [incFirstTask, hid]
    · simp only [Bool.not_eq_true] at hmatch
      simp only [List.find?_cons, hmatch] at hf
      have hndtl : (tl.map Task.id).Nodup := (List.nodup_cons.mp hnd).2
      obtain ⟨pre, post, h1, h2⟩ := ih hndtl hf
      by_cases hid : (hd.id == tid) = true
      · exfalso
        have htmem : t ∈ tl := List.mem_of_find?_eq_some hf
        have htid : (t.id == tid) = true := by
          have := List.find?_some hf
          simp only [Bool.and_eq_true] at this
          exact this.1
        have : hd.id ∈ tl.map Task.id := by
          refine List.mem_map.mpr ⟨t, htmem, ?_⟩
          rw [eq_of_beq htid, eq_of_beq hid]
        exact (List.nodup_cons.mp hnd).1 this
      · refine ⟨hd :: pre, post, by simp [h1], ?_⟩
        simp only [incFirstTask, hid, if_false]
        rw [h2]
        rfl

/-- C3 (amended): a successful `claim_task_reward` increments the balance
by the task's reward, appends the task id to the completed set, appends
one Transaction whose rule key is `"task_" ++ category`, increments the
claimed task's global completion counter, and appends ONE ActivityEvent
with `task_completed` action (the source logs a single activity entry;
the two follow-up `send_personal_message` calls go to the WebSocket
transport, not the activity log). -/
theorem claim_task_success_effects (now : Int) (st : ServerDb) (tid : String)
    (resp : TaskCompletionResponse)
    (hnd : (st.tasks.map Task.id).Nodup)
    (h : (claim_task_reward now st tid).2 = .ok resp) :
    ∃ t, find_task st tid = some t ∧
      (claim_task_reward now st tid).1.user.coins = st.user.coins + t.coins_reward ∧
      (claim_task_reward now st tid).1.user.completed_tasks =
        st.user.completed_tasks ++ [tid] ∧
      (∃ tx, (claim_task_reward now st tid).1.transactions = st.transactions ++ [tx] ∧
        tx.rule_key = "task_" ++ t.category ∧ tx.amount = t.coins_reward) ∧
      (∃ pre post, st.tasks = pre ++ t :: post ∧
        (claim_task_reward now st tid).1.tasks =
          pre ++ { t with completion_count := t.completion_count + 1 } :: post) ∧
      (∃ a, (claim_task_reward now st tid).1.user.activity_log =
        st.user.activity_log ++ [a] ∧ a.action = "task_completed") := by
  unfold claim_task_reward at h ⊢
  cases hfind : find_task st tid with
  | none =>
    rw [hfind] at h
    cases h
  | some t =>
    simp only [hfind] at h ⊢
    cases hexp : task_expiry_test now t with
    | error e' =>
      simp only [hexp] at h
      cases h
    | ok b =>
      simp only [hexp] at h ⊢
      cases b with
      | true =>
        simp only [if_true] at h
        cases h
      | false =>
        simp only [Bool.false_eq_true, if_false] at h ⊢
        by_cases h2 : tid ∈ st.user.completed_tasks
        · simp only [h2, if_true] at h
          cases h
        · simp only [h2, if_false] at h ⊢
          cases hreq : check_task_requirements now st.user t with
          | error e' =>
            simp only [hreq] at h
            cases h
          | ok rc =>
            simp only [hreq] at h ⊢
            by_cases h3 : rc.2
            · simp only [h3, Bool.not_true, Bool.false_eq_true, if_false] at h ⊢
              by_cases h4 : limit_reached t
              · simp only [h4, if_true] at h
                cases h
              · simp only [h4, Bool.false_eq_true, if_false] at h ⊢
                obtain ⟨pre, post, hsplit, hinc⟩ :=
                  incFirstTask_of_find tid st.tasks t hnd hfind
                exact ⟨t, rfl, rfl, rfl, ⟨_, rfl, rfl, rfl⟩,
                  ⟨pre, post, hsplit, by simpa [log_user_activity] using hinc⟩,
                  ⟨_, rfl, rfl⟩⟩
            · simp only [Bool.not_eq_true] at h3
              simp only [h3, Bool.not_false, if_true] at h
              cases h

/-- Witness for the success-effects theorem: the fresh user claims the
bonus task. -/
theorem claim_task_success_effects_witness :
    ∃ t, find_task dbBonus "t1" = some t ∧
      (claim_task_reward 0 dbBonus "t1").1.user.coins =
        dbBonus.user.coins + t.coins_reward ∧
      (claim_task_reward 0 dbBonus "t1").1.user.completed_tasks =
        dbBonus.user.completed_tasks ++ ["t1"] ∧
      (∃ tx, (claim_task_reward 0 dbBonus "t1").1.transactions =
        dbBonus.transactions ++ [tx] ∧
        tx.rule_key = "task_" ++ t.category ∧ tx.amount = t.coins_reward) ∧
      (∃ pre post, dbBonus.tasks = pre ++ t :: post ∧
        (claim_task_reward 0 dbBonus "t1").1.tasks =
          pre ++ { t with completion_count := t.completion_count + 1 } :: post) ∧
      (∃ a, (claim_task_reward 0 dbBonus "t1").1.user.activity_log =
        dbBonus.user.activity_log ++ [a] ∧ a.action = "task_completed") :=
  claim_task_success_effects 0 dbBonus "t1"
    { success := true, message := "Task \x27Bonus\x27 completed! +20 coins"
      coins_earned := some 20, new_balance := some 20 }
    (by decide) rfl

/-- C3 counterexample: the successful bonus-task claim appends exactly
one activity-log entry, not two — refuting the claim that two
ActivityEvents are appended. -/
theorem claim_task_two_events_cex :
    (∃ resp, (claim_task_reward 0 dbBonus "t1").2 = .ok resp ∧ resp.success = true) ∧
    (claim_task_reward 0 dbBonus "t1").1.user.activity_log.length =
      dbBonus.user.activity_log.length + 1 ∧
    (claim_task_reward 0 dbBonus "t1").1.user.activity_log.length ≠
      dbBonus.user.activity_log.length + 2 :=
  ⟨⟨_, rfl, rfl⟩, by decide, by decide⟩

/-- C6 (code observation): evaluating the "Task Master"
count-within-window predicate for Eve — 2 qualifying `task_completed`
events dated today, 5 dated yesterday — does not report
`completed_today = 2, target = 3, can_claim = false` as the spec
requires: the first `task_completed` entry encountered makes line 327
call `str.replace` positionally on a stored datetime object, raising an
uncaught `TypeError` (a 500 server error), before any count is
produced. -/
theorem task_master_typeError :
    check_task_requirements (2 * 86400 + 100) eve taskMasterTask =
      .error (.typeError "an integer is required (got type str)") :=
  rfl

/-- Length of the ranked list equals the number of ranked users. -/
theorem rankFrom_length (i : Nat) (l : List User) :
    (rankFrom i l).length = l.length := by
  induction l generalizing i with
  | nil => rfl
  | cons hd tl ih => simp [rankFrom, ih]

/-- Entry `j` of the ranking loop started at `i` carries rank
`i + j + 1`. -/
theorem rankFrom_rank (l : List User) : ∀ (i j : Nat) (h : j < (rankFrom i l).length),
    ((rankFrom i l).get ⟨j, h⟩).rank = i + j + 1 := by
  induction l with
  | nil =>
    intro i j h
    simp [rankFrom] at h
  | cons hd tl ih =>
    intro i j h
    cases j with
    | zero => rfl
    | succ j' =>
      have h' : j' < (rankFrom (i + 1) tl).length := by
        simpa [rankFrom] using Nat.lt_of_succ_lt_succ (by simpa [rankFrom] using h)
      have := ih (i + 1) j' h'
      simpa [rankFrom] using this.trans (by omega)

/-- Each ranked entry keeps the balance of some ranked user. -/
theorem rankFrom_mem (i : Nat) (l : List User) (e : LeaderboardEntry)
    (h : e ∈ rankFrom i l) : ∃ u ∈ l, e.coins = u.coins := by
  induction l generalizing i with
  | nil => simp [rankFrom] at h
  | cons hd tl ih =>
    simp only [rankFrom, List.mem_cons] at h
    rcases h with rfl | h
    · exact ⟨hd, List.mem_cons_self _ _, rfl⟩
    · obtain ⟨u, hu, he⟩ := ih (i + 1) h
      exact ⟨u, List.mem_cons_of_mem _ hu, he⟩

/-- Ranking preserves the descending-balance pairwise order. -/
theorem rankFrom_pairwise (i : Nat) (l : List User) (h : l.Pairwise coinsGE) :
    (rankFrom i l).Pairwise (fun a b => b.coins ≤ a.coins) := by
  induction l generalizing i with
  | nil => exact List.Pairwise.nil
  | cons hd tl ih =>
    obtain ⟨h1, h2⟩ := List.pairwise_cons.mp h
    refine List.pairwise_cons.mpr ⟨?_, ih (i + 1) h2⟩
    intro e he
    obtain ⟨u, hu, hc⟩ := rankFrom_mem (i + 1) tl e he
    rw [hc]
    exact h1 u hu

/-- Three stored users with balances 50, 50, 30 (ids in storage
order). -/
def lbU1 : User := { aliceFresh with id := "u1", name := "A", coins := 50 }

/-- Second stored user, tied at 50 coins. -/
def lbU2 : User := { aliceFresh with id := "u2", name := "B", coins := 50 }

/-- Third stored user with 30 coins. -/
def lbU3 : User := { aliceFresh with id := "u3", name := "C", coins := 30 }

/-- Storage-order user list for the leaderboard example. -/
def lbUsers : List User := [lbU1, lbU2, lbU3]

/-- C5: `get_leaderboard` returns entries in descending balance order
with ranks assigned strictly `1..N` by position — never a shared rank —
ties keeping their storage order (stable sort); in particular, over
balances [50, 50, 30] it yields ranks [1, 2, 3] with the tied pair in
storage order. -/
theorem leaderboard_ranked (limit : Nat) (users : List User) :
    (∀ (j : Nat) (h : j < (get_leaderboard limit users).length),
      ((get_leaderboard limit users).get ⟨j, h⟩).rank = j + 1) ∧
    (get_leaderboard limit users).Pairwise (fun a b => b.coins ≤ a.coins) ∧
    (∀ a b : User, a.coins = b.coins → [a, b].Sublist users →
      [a, b].Sublist (sortUsers users)) ∧
    get_leaderboard 3 lbUsers =
      [⟨"u1", "A", 50, 1⟩, ⟨"u2", "B", 50, 2⟩, ⟨"u3", "C", 30, 3⟩] := by
  refine ⟨?_, ?_, ?_, ?_⟩
  · intro j h
    have := rankFrom_rank ((sortUsers users).take limit) 0 j h
    simpa [get_leaderboard] using this
  · have hs : (sortUsers users).Pairwise coinsGE :=
      List.sorted_insertionSort coinsGE users
    have ht : ((sortUsers users).take limit).Pairwise coinsGE :=
      hs.sublist (List.take_sublist _ _)
    exact rankFrom_pairwise 0 _ ht
  · intro a b hco hsub
    exact List.pair_sublist_insertionSort (le_of_eq hco.symm) hsub
  · decide

/-- Witness for the leaderboard theorem: the top entry of the example has
rank 1, and the tied pair stays in storage order in the sorted list. -/
theorem leaderboard_ranked_witness :
    ((get_leaderboard 3 lbUsers).get ⟨0, by decide⟩).rank = 0 + 1 ∧
    [lbU1, lbU2].Sublist (sortUsers lbUsers) :=
  ⟨(leaderboard_ranked 3 lbUsers).1 0 (by decide),
   (leaderboard_ranked 3 lbUsers).2.2.1 lbU1 lbU2 rfl
     (by decide)⟩

/-- The fan-out pass attempts a send to every connection of the
snapshot, in map order — even those after a failing one. -/
theorem broadcast_pass_fst (p : String) (l : List (String × Channel)) :
    (broadcast_pass p l).1 = l.map Prod.fst := by
  induction l with
  | nil => rfl
  | cons hd tl ih =>
    obtain ⟨uid, ch⟩ := hd
    cases hok : ch.send_ok <;>
      simp [broadcast_pass, Channel.send_text, hok, ih]

/-- The fan-out pass collects exactly the ids of the broken channels. -/
theorem broadcast_pass_snd (p : String) (l : List (String × Channel)) :
    (broadcast_pass p l).2 = (l.filter (fun q => !q.2.send_ok)).map Prod.fst := by
  induction l with
  | nil => rfl
  | cons hd tl ih =>
    obtain ⟨uid, ch⟩ := hd
    cases hok : ch.send_ok <;>
      simp [broadcast_pass, Channel.send_text, hok, ih]

/-- Folding `disconnect` over a list of ids removes exactly the
connections keyed by those ids. -/
theorem foldl_disconnect_active (ids : List String) (m : ConnectionManager) :
    (ids.foldl (fun acc uid => acc.disconnect uid) m).active_connections =
      m.active_connections.filter (fun q => decide (q.1 ∉ ids)) := by
  induction ids generalizing m with
  | nil => simp
  | cons uid rest ih =>
    rw [List.foldl_cons, ih]
    show (m.active_connections.filter fun q => q.1 != uid).filter
        (fun q => decide (q.1 ∉ rest)) = _
    rw [List.filter_filter]
    apply List.filter_congr
    intro q _
    by_cases h1 : q.1 = uid <;> by_cases h2 : q.1 ∈ rest <;>
      simp [h1, h2, bne]

/-- C8: `broadcast_leaderboard` never raises to its caller (it always
returns `ok`); it attempts delivery to every connection of the snapshot
before any removal, then removes exactly the failed connections; and a
subsequent broadcast no longer attempts delivery to a removed id. -/
theorem broadcast_leaderboard_spec (m : ConnectionManager) (payload : String)
    (hnd : (m.active_connections.map Prod.fst).Nodup) :
    ∃ att m', m.broadcast_leaderboard payload = .ok (att, m') ∧
      att = m.active_connections.map Prod.fst ∧
      m'.active_connections = m.active_connections.filter (fun q => q.2.send_ok) ∧
      (∀ uid ch, (uid, ch) ∈ m.active_connections → ch.send_ok = false →
        ∀ att2 m2, m'.broadcast_leaderboard payload = .ok (att2, m2) →
          uid ∉ att2) := by
  have hactive : ((broadcast_pass payload m.active_connections).2.foldl
      (fun acc uid => acc.disconnect uid) m).active_connections =
      m.active_connections.filter (fun q => q.2.send_ok) := by
    rw [foldl_disconnect_active, broadcast_pass_snd]
    apply List.filter_congr
    intro q hq
    cases hok : q.2.send_ok
    · have : q.1 ∈ (m.active_connections.filter
          (fun q => !q.2.send_ok)).map Prod.fst :=
        List.mem_map.mpr ⟨q, List.mem_filter.mpr ⟨hq, by rw [hok]; rfl⟩, rfl⟩
      simp [this]
    · have : q.1 ∉ (m.active_connections.filter
          (fun q => !q.2.send_ok)).map Prod.fst := by
        intro hmem
        obtain ⟨q', hq', hfst⟩ := List.mem_map.mp hmem
        obtain ⟨hq'mem, hq'bad⟩ := List.mem_filter.mp hq'
        have : q' = q := List.inj_on_of_nodup_map hnd hq'mem hq hfst
        rw [this, hok] at hq'bad
        cases hq'bad
      simp [this]
  refine ⟨_, _, rfl, broadcast_pass_fst _ _, hactive, ?_⟩
  intro uid ch hmem hbad att2 m2 h2 hin
  have hatt2 : att2 = ((broadcast_pass payload m.active_connections).2.foldl
      (fun acc uid => acc.disconnect uid) m).active_connections.map Prod.fst := by
    cases h2
    exact broadcast_pass_fst _ _
  rw [hatt2, hactive] at hin
  obtain ⟨q, hq, hfst⟩ := List.mem_map.mp hin
  obtain ⟨hqmem, hqok⟩ := List.mem_filter.mp hq
  have : q = (uid, ch) := List.inj_on_of_nodup_map hnd hqmem hmem hfst
  rw [this, hbad] at hqok
  cases hqok

/-- Manager with one live and one broken channel. -/
def twoConnManager : ConnectionManager :=
  ⟨[("u1", ⟨true⟩), ("u2", ⟨false⟩)]⟩

/-- Witness: broadcasting over a live and a broken channel attempts
both, removes only the broken one, and skips it on a second pass. -/
theorem broadcast_leaderboard_spec_witness :
    ∃ att m', twoConnManager.broadcast_leaderboard "msg" = .ok (att, m') ∧
      att = twoConnManager.active_connections.map Prod.fst ∧
      m'.active_connections = twoConnManager.active_connections.filter
        (fun q => q.2.send_ok) ∧
      (∀ uid ch, (uid, ch) ∈ twoConnManager.active_connections →
        ch.send_ok = false →
        ∀ att2 m2, m'.broadcast_leaderboard "msg" = .ok (att2, m2) →
          uid ∉ att2) :=
  broadcast_leaderboard_spec twoConnManager "msg" (by decide)

end Vitacoin
